import Mathlib

/-!
# Verification of the Personal Finance Tracker

A shallow embedding of `src/finance_tracker.py` (a single-file tkinter +
pandas application) and proofs about its record store, entry-form
validation, history filtering, dashboard aggregations and exports.

Modelling choices, uniform throughout:

* A pandas `DataFrame` row is a `Record`; the in-memory dataset
  `self.data` is a `List Record` in insertion order.  pandas lets the
  dashboard add a `month` column to the frame at runtime, so `Record`
  carries an `Option String` field `month`, `none` while the column does
  not exist (rows written by `save_record` have no month cell).
* Python floats are modelled as rationals (`ℚ`); Python's `float(str)`
  conversion is an arbitrary parameter `parse : String → Option ℚ`
  (`none` models `ValueError`), so every theorem below holds for every
  behaviour of the conversion function.  Where the IEEE non-number `nan`
  matters — `float("nan")` parses yet compares `False` against
  everything — the dedicated type `PyFloat` refines this model.
* The persisted CSV file is `Option (List Record)`: `none` while the
  file does not exist, `some rows` once it exists holding a header line
  plus `rows`.  `to_csv(mode='a', header=is_new_file)` therefore maps
  `none` to `some [r]` and `some rows` to `some (rows ++ [r])`.
* tkinter widgets are modelled by the values they hold: the entry/radio
  variables become string fields of `AppState`, the history `Treeview`
  contents become the `displayed` list, and a `messagebox` call becomes
  the returned `SaveResult`.
-/

/-- `COLUMNS` from the configuration section. -/
def COLUMNS : List String := ["date", "type", "category", "amount", "description"]

/-- The `CATEGORIES` dict; total via the same default (`[]`) that
`CATEGORIES.get(current_type, [])` supplies in `update_categories`. -/
def CATEGORIES : String → List String
  | "Expense" => ["Food", "Transport", "Shopping", "Bills", "Entertainment", "Health",
      "Other Expense"]
  | "Income" => ["Salary", "Bonus", "Investment", "Gift", "Other Income"]
  | _ => []

/-- Python's `str.strip()` (used on the amount and description entries):
drop leading and trailing whitespace.  Defined by structural recursion on
the character list so that it evaluates inside the kernel. -/
def String.pyStrip (s : String) : String :=
  ⟨((s.data.dropWhile Char.isWhitespace).reverse.dropWhile Char.isWhitespace).reverse⟩

/-- One row of the dataset.  `month` is the dashboard's dynamically added
column (`none` = column absent for this row). -/
structure Record where
  date : String
  type : String
  category : String
  amount : ℚ
  description : String
  month : Option String := none
deriving Repr, DecidableEq

/-- The mutable state of `FinanceTrackerApp`: the persisted CSV file, the
in-memory frame `self.data`, the history `Treeview` rows, and the tkinter
variables of the entry form and of the filter controls. -/
structure AppState where
  csvFile : Option (List Record)
  data : List Record
  displayed : List Record
  recordType : String
  categoryVar : String
  amountEntry : String
  descriptionEntry : String
  filterTypeVar : String
  filterCategoryVar : String
deriving Repr, DecidableEq

/-- Outcome surfaced by `save_record` through `messagebox`. -/
inductive SaveResult where
  | validationError (msg : String)
  | success
deriving Repr, DecidableEq

/-- `save_record` (lines 192-242): read the form, validate (category
non-empty first, then `float` conversion, then positivity), and on
success append the new row to the CSV file and to `self.data` and clear
the amount/description/category fields.  `parse` stands for Python's
`float`; `now` is the `datetime.now()` timestamp string. -/
def save_record (parse : String → Option ℚ) (now : String) (s : AppState) :
    AppState × SaveResult :=
  if s.categoryVar = "" then
    (s, .validationError "Please select a category.")
  else
    match parse s.amountEntry.pyStrip with
    | none => (s, .validationError "Amount must be a valid number.")
    | some amount =>
      if amount ≤ 0 then
        (s, .validationError "Amount must be a positive number.")
      else
        let r : Record :=
          { date := now, type := s.recordType, category := s.categoryVar,
            amount := amount, description := s.descriptionEntry.pyStrip }
        ({ s with
            csvFile := some ((s.csvFile.getD []) ++ [r]),
            data := s.data ++ [r],
            amountEntry := "", descriptionEntry := "", categoryVar := "" },
          .success)

/-- The rows the persisted file holds (`[]` while the file is absent). -/
def fileRows (s : AppState) : List Record := s.csvFile.getD []

/-- The form contents a user enters before pressing Save once. -/
structure SaveInput where
  recordType : String
  category : String
  amountStr : String
  descriptionStr : String
  now : String
deriving Repr, DecidableEq

/-- Put one save's form contents into the widgets. -/
def setForm (i : SaveInput) (s : AppState) : AppState :=
  { s with recordType := i.recordType, categoryVar := i.category,
           amountEntry := i.amountStr, descriptionEntry := i.descriptionStr }

/-- Perform a sequence of save operations, each preceded by filling the
form with that save's inputs. -/
def runSaves (parse : String → Option ℚ) (inputs : List SaveInput) (s : AppState) :
    AppState :=
  inputs.foldl (fun st i => (save_record parse i.now (setForm i st)).1) s

/-- The row `save_record` appends for input `i` when validation passes. -/
def mkRecord (parse : String → Option ℚ) (i : SaveInput) : Record :=
  { date := i.now, type := i.recordType, category := i.category,
    amount := (parse i.amountStr.pyStrip).getD 0,
    description := i.descriptionStr.pyStrip }

/-- A form input that passes both validation checks of `save_record`. -/
def validB (parse : String → Option ℚ) (i : SaveInput) : Bool :=
  (!(i.category = "")) &&
    (match parse i.amountStr.pyStrip with
     | none => false
     | some a => decide (0 < a))

def ValidInput (parse : String → Option ℚ) (i : SaveInput) : Prop :=
  validB parse i = true

instance (parse : String → Option ℚ) (i : SaveInput) :
    Decidable (ValidInput parse i) := by
  unfold ValidInput; infer_instance

/-- The application state right after startup with loaded data `d0` and
file contents `f0`: the widget defaults set in `create_add_record_frame`,
`create_history_frame` and `update_categories`. -/
def initState (d0 : List Record) (f0 : Option (List Record)) : AppState :=
  { csvFile := f0, data := d0, displayed := d0, recordType := "Expense",
    categoryVar := "", amountEntry := "", descriptionEntry := "",
    filterTypeVar := "All", filterCategoryVar := "All" }

/-- Startup on a fresh install: no CSV file, empty dataset. -/
def emptyState : AppState := initState [] none

/-- A concrete stand-in for Python's `float` used to instantiate the
theorems that quantify over the conversion function. -/
def demoParse : String → Option ℚ := fun str =>
  if str = "20" then some 20
  else if str = "30" then some 30
  else if str = "-5" then some (-5)
  else none

def demoSave1 : SaveInput :=
  { recordType := "Expense", category := "Food", amountStr := "20",
    descriptionStr := "lunch", now := "2024-01-05 12:00:00" }

def demoSave2 : SaveInput :=
  { recordType := "Income", category := "Salary", amountStr := "30",
    descriptionStr := "", now := "2024-01-10 09:00:00" }

/-- The two equality predicates of `apply_filter` (lines 267-283) run on
a copy of the dataset: a `"All"` value imposes no constraint, any other
value keeps the rows whose field equals it. -/
def filterData (data : List Record) (filterType filterCategory : String) :
    List Record :=
  let d1 :=
    if filterType = "All" then data
    else data.filter (fun r => decide (r.type = filterType))
  if filterCategory = "All" then d1
  else d1.filter (fun r => decide (r.category = filterCategory))

/-- `load_history_data` (lines 254-265): clear the `Treeview` and
repopulate it from the given frame, or from `self.data` when `None` is
passed. -/
def load_history_data (s : AppState) (filtered : Option (List Record)) : AppState :=
  { s with displayed := filtered.getD s.data }

/-- `apply_filter` (lines 267-283): filter a copy of `self.data` by the
two combobox values and hand the result to `load_history_data`. -/
def apply_filter (s : AppState) : AppState :=
  load_history_data s (some (filterData s.data s.filterTypeVar s.filterCategoryVar))

/-- Choose values in the two filter comboboxes. -/
def setFilters (filterType filterCategory : String) (s : AppState) : AppState :=
  { s with filterTypeVar := filterType, filterCategoryVar := filterCategory }

/-- The calendar year-month key `pd.to_datetime` + `dt.to_period('M')`
derive from a `YYYY-MM-DD[ HH:MM:SS]` date string: its first seven
characters `YYYY-MM`. -/
def monthKey (date : String) : String := ⟨date.data.take 7⟩

/-- The dashboard's column assignments (lines 317-318): store each row's
month key in the frame's `month` column. -/
def add_month_column (data : List Record) : List Record :=
  data.map fun r => { r with month := some (monthKey r.date) }

/-- The effect of `create_dashboard_plots` (lines 285-334) on the
application state: nothing when the dataset is empty (the empty-state
label is shown instead), otherwise the bar-chart preparation writes the
converted date and the new `month` column back into `self.data`. -/
def create_dashboard_plots (s : AppState) : AppState :=
  if s.data = [] then s
  else { s with data := add_month_column s.data }

/-- The rows of `self.data[self.data['type'] == 'Expense']`. -/
def expenseRows (data : List Record) : List Record :=
  data.filter (fun r => decide (r.type = "Expense"))

/-- `['amount'].sum()` over a list of rows. -/
def sumAmounts (data : List Record) : ℚ := (data.map (fun r => r.amount)).sum

/-- Lexicographic `≤` on character lists by structural recursion, the
string order pandas sorts group keys by (`strLe_iff` below identifies it
with the standard order on `String`). -/
def charListLe : List Char → List Char → Bool
  | [], _ => true
  | _ :: _, [] => false
  | a :: as, b :: bs =>
    if a < b then true
    else if b < a then false
    else charListLe as bs

def strLe (a b : String) : Bool := charListLe a.data b.data

/-- Insert a key into an ascending key list, keeping it ascending. -/
def insertKey (c : String) : List String → List String
  | [] => [c]
  | b :: l => if strLe c b then c :: b :: l else b :: insertKey c l

def sortedKeysAux (acc : List String) : List String → List String
  | [] => acc
  | c :: cs => sortedKeysAux (if c ∈ acc then acc else insertKey c acc) cs

/-- The group keys a pandas `groupby` produces: the distinct values in
the order of the default `sort=True`, i.e. ascending. -/
def sortedKeys (l : List String) : List String := sortedKeysAux [] l

/-- The pie-chart series (line 301):
`self.data[self.data['type'] == 'Expense'].groupby('category')['amount'].sum()`,
one `(category, total)` pair per distinct expense category. -/
def expense_data (data : List Record) : List (String × ℚ) :=
  (sortedKeys ((expenseRows data).map (fun r => r.category))).map
    (fun c => (c, sumAmounts ((expenseRows data).filter (fun r => decide (r.category = c)))))

/-- Chart A: rendered only `if not expense_data.empty` (line 302). -/
def chartA (data : List Record) : Option (List (String × ℚ)) :=
  if expense_data data = [] then none else some (expense_data data)

/-- The bar-chart table (line 320):
`groupby(['month', 'type'])['amount'].sum().unstack(fill_value=0)` —
months ascending, one column per type occurring in the dataset, missing
(month, type) groups summing to `0`. -/
def monthly_summary (data : List Record) : List (String × List (String × ℚ)) :=
  (sortedKeys (data.map (fun r => monthKey r.date))).map
    (fun m => (m, (sortedKeys (data.map (fun r => r.type))).map
      (fun t => (t, sumAmounts (data.filter
        (fun r => decide (monthKey r.date = m ∧ r.type = t)))))))

/-- Chart B: rendered only `if not monthly_summary.empty` (line 322). -/
def chartB (data : List Record) : Option (List (String × List (String × ℚ))) :=
  if monthly_summary data = [] then none else some (monthly_summary data)

/-- An on-disk CSV file as `pd.read_csv` receives it. -/
structure CsvFile where
  text : List String
deriving Repr, DecidableEq

/-- A pandas `DataFrame`: its column labels and its rows. -/
structure Frame where
  columns : List String
  rows : List Record
deriving Repr, DecidableEq

/-- `load_data` (lines 45-52): `pd.read_csv(CSV_FILE)` when the file
exists — `read_csv` is kept abstract, `Except` modelling a raised parse
error — and otherwise `pd.DataFrame(columns=COLUMNS)`, which cannot
fail. -/
def load_data (read_csv : CsvFile → Except String Frame) (fs : Option CsvFile) :
    Except String Frame :=
  match fs with
  | some f => read_csv f
  | none => .ok { columns := COLUMNS, rows := [] }

/-- One exported cell row of a `Record`. -/
def recordCells (r : Record) : List String :=
  [r.date, r.type, r.category, toString r.amount, r.description]

/-- The cell rows `to_excel(index=False)` writes (line 343): the column
headers, then one row per record. -/
def export_to_excel_rows (data : List Record) : List (List String) :=
  COLUMNS :: data.map recordCells

/-- The cell rows of the PDF table (line 365):
`[self.data.columns.to_list()] + self.data.values.tolist()`. -/
def export_to_pdf_rows (data : List Record) : List (List String) :=
  COLUMNS :: data.map recordCells

/-- The user interactions the Add Record tab offers.  The radio buttons
carry the fixed values `Expense`/`Income`; the category combobox is
`state="readonly"`, so a selection is always one of its current
`values`. -/
inductive FormEvent where
  | selectType (t : String)
  | selectCategory (c : String)
  | setAmount (a : String)
  | setDescription (d : String)
  | clickSave (now : String)
deriving Repr, DecidableEq

/-- One interaction with the Add Record tab.  `selectType` runs
`update_categories` (lines 184-190), which swaps the combobox values to
`CATEGORIES.get(t, [])` and clears the selection; `selectCategory` can
only pick a value the readonly combobox currently offers. -/
def formStep (parse : String → Option ℚ) (s : AppState) : FormEvent → AppState
  | .selectType t =>
      if t = "Expense" ∨ t = "Income" then
        { s with recordType := t, categoryVar := "" }
      else s
  | .selectCategory c =>
      if c ∈ CATEGORIES s.recordType then { s with categoryVar := c } else s
  | .setAmount a => { s with amountEntry := a }
  | .setDescription d => { s with descriptionEntry := d }
  | .clickSave now => (save_record parse now s).1

/-- Run a sequence of Add Record tab interactions. -/
def runForm (parse : String → Option ℚ) (events : List FormEvent) (s : AppState) :
    AppState :=
  events.foldl (formStep parse) s

/-- A reachable entry form: the category selection is empty or one of the
current type's categories. -/
def FormInv (s : AppState) : Prop :=
  s.categoryVar = "" ∨ s.categoryVar ∈ CATEGORIES s.recordType

/-- Every dataset row was loaded at startup or satisfies the Record
invariants. -/
def DataInv (d0 : List Record) (s : AppState) : Prop :=
  ∀ r ∈ s.data, r ∈ d0 ∨ (0 < r.amount ∧ r.category ∈ CATEGORIES r.type)

/-- The example dataset of the spec's testable-properties section. -/
def exampleData : List Record :=
  [{ date := "2024-01-05", type := "Expense", category := "Food",
     amount := 20, description := "" },
   { date := "2024-01-10", type := "Income", category := "Salary",
     amount := 1000, description := "" },
   { date := "2024-02-01", type := "Expense", category := "Food",
     amount := 30, description := "" }]

/-- A dataset with three Expense rows and two Income rows interleaved. -/
def fe1 : Record :=
  { date := "2024-01-01", type := "Expense", category := "Food",
    amount := 1, description := "" }

def fi1 : Record :=
  { date := "2024-01-02", type := "Income", category := "Salary",
    amount := 2, description := "" }

def fe2 : Record :=
  { date := "2024-01-03", type := "Expense", category := "Bills",
    amount := 3, description := "" }

def fi2 : Record :=
  { date := "2024-01-04", type := "Income", category := "Gift",
    amount := 4, description := "" }

def fe3 : Record :=
  { date := "2024-01-05", type := "Expense", category := "Food",
    amount := 5, description := "" }

def filterDemoData : List Record := [fe1, fi1, fe2, fi2, fe3]

/-- `export_to_excel` (lines 336-348): serialize the full in-memory
dataset, headers included, to a user-chosen path.  It reads `self.data`
and assigns no application state. -/
def export_to_excel (s : AppState) : AppState × List (List String) :=
  (s, export_to_excel_rows s.data)

/-- `export_to_pdf` (lines 350-386): likewise read-only on the state. -/
def export_to_pdf (s : AppState) : AppState × List (List String) :=
  (s, export_to_pdf_rows s.data)

/-- A Python float as the amount validation observes it: an ordered
rational value, or the IEEE non-number `nan` — for which every order
comparison evaluates to `False`. -/
inductive PyFloat where
  | val (q : ℚ)
  | nan
deriving Repr, DecidableEq

/-- Python's `amount <= 0` at line 209: `nan <= 0` is `False`. -/
def pyLeZero : PyFloat → Bool
  | .val q => decide (q ≤ 0)
  | .nan => false

/-- Python's `amount > 0`: `nan > 0` is `False` as well. -/
def pyGtZero : PyFloat → Bool
  | .val q => decide (0 < q)
  | .nan => false

/-- The amount-validation step of `save_record` (lines 207-214) over IEEE
floats: run `float(amount_str)` on the stripped entry, report an error if
it raises, reject when `amount <= 0`; `some a` means the save proceeds
and stores amount `a`. -/
def amountCheck (parse : String → Option PyFloat) (amountStr : String) :
    Option PyFloat :=
  match parse amountStr.pyStrip with
  | none => none
  | some a => if pyLeZero a then none else some a

/-- Modelled from the spec and Python semantics of `float`:
`float("nan")` succeeds and returns the IEEE `nan`. -/
def pyFloatFixture : String → Option PyFloat := fun str =>
  if str = "nan" then some .nan
  else if str = "20" then some (.val 20)
  else none

/-- The state whose dataset is the spec's example dataset. -/
def dashDemoState : AppState := initState exampleData (some exampleData)

/-- A concrete session: pick the Food category, type an amount of 20,
press Save. -/
def demoEvents : List FormEvent :=
  [.selectCategory "Food", .setAmount "20", .clickSave "2024-01-05 12:00:00"]

def demoSavedRecord : Record :=
  { date := "2024-01-05 12:00:00", type := "Expense", category := "Food",
    amount := 20, description := "" }

-- how `save_record` behaves on a valid form
theorem save_record_success (parse : String → Option ℚ) (now : String) (s : AppState)
    (hc : ¬ s.categoryVar = "") (a : ℚ) (hp : parse s.amountEntry.pyStrip = some a)
    (ha : 0 < a) :
    save_record parse now s =
      ({ s with
          csvFile := some (s.csvFile.getD [] ++
            [{ date := now, type := s.recordType, category := s.categoryVar,
               amount := a, description := s.descriptionEntry.pyStrip }]),
          data := s.data ++
            [{ date := now, type := s.recordType, category := s.categoryVar,
               amount := a, description := s.descriptionEntry.pyStrip }],
          amountEntry := "", descriptionEntry := "", categoryVar := "" },
        .success) := by
  unfold save_record
  rw [if_neg hc, hp]
  dsimp only
  rw [if_neg (not_le.mpr ha)]

-- unpack the two validation checks from `ValidInput`
theorem validInput_elim (parse : String → Option ℚ) (i : SaveInput)
    (h : ValidInput parse i) :
    ¬ i.category = "" ∧ ∃ a, parse i.amountStr.pyStrip = some a ∧ 0 < a := by
  unfold ValidInput validB at h
  rcases hpa : parse i.amountStr.pyStrip with _ | a <;> rw [hpa] at h
  · simp at h
  · simp only [Bool.and_eq_true, Bool.not_eq_true', decide_eq_true_eq,
      decide_eq_false_iff_not] at h
    exact ⟨h.1, a, rfl, h.2⟩

-- the dataset and the file after a sequence of valid saves
theorem runSaves_data_file (parse : String → Option ℚ) :
    ∀ (inputs : List SaveInput) (s0 : AppState),
    (∀ i ∈ inputs, ValidInput parse i) →
    (runSaves parse inputs s0).data = s0.data ++ inputs.map (mkRecord parse)
    ∧ fileRows (runSaves parse inputs s0) = fileRows s0 ++ inputs.map (mkRecord parse) := by
  intro inputs
  induction inputs with
  | nil => intro s0 _; simp [runSaves]
  | cons i is ih =>
    intro s0 hval
    obtain ⟨hc, a, hpa, ha⟩ := validInput_elim parse i (hval i (by simp))
    have hstep := save_record_success parse i.now (setForm i s0)
      (by simpa [setForm] using hc) a (by simpa [setForm] using hpa) ha
    have hrun : runSaves parse (i :: is) s0 =
        runSaves parse is (save_record parse i.now (setForm i s0)).1 := rfl
    have hmk : mkRecord parse i =
        { date := i.now, type := i.recordType, category := i.category,
          amount := a, description := i.descriptionStr.pyStrip } := by
      simp [mkRecord, hpa]
    obtain ⟨ihd, ihf⟩ := ih (save_record parse i.now (setForm i s0)).1
      (fun j hj => hval j (by simp [hj]))
    constructor
    · rw [hrun, ihd, hstep]
      simp [setForm, hmk]
    · rw [hrun, ihf, hstep]
      simp [setForm, hmk, fileRows]

/-- C1: a sequence of valid saves appends its records, in order, to both
the in-memory dataset and the persisted file; rows present beforehand are
preserved unchanged as a prefix, and starting from an empty dataset and a
nonexistent file the result holds exactly `N = inputs.length` rows in
each. -/
theorem save_sequence_append_only (parse : String → Option ℚ)
    (inputs : List SaveInput) (s0 : AppState)
    (hval : ∀ i ∈ inputs, ValidInput parse i) :
    (runSaves parse inputs s0).data = s0.data ++ inputs.map (mkRecord parse)
    ∧ fileRows (runSaves parse inputs s0) = fileRows s0 ++ inputs.map (mkRecord parse)
    ∧ (s0.data = [] → (runSaves parse inputs s0).data.length = inputs.length)
    ∧ (s0.csvFile = none → (fileRows (runSaves parse inputs s0)).length = inputs.length) := by
  obtain ⟨hd, hf⟩ := runSaves_data_file parse inputs s0 hval
  refine ⟨hd, hf, ?_, ?_⟩
  · intro h0; rw [hd, h0]; simp
  · intro h0; rw [hf]; simp [fileRows, h0]


/-- Witness for C1: two concrete valid saves from a fresh start leave
exactly two rows in the dataset and in the file. -/
theorem save_sequence_append_only_witness :
    (runSaves demoParse [demoSave1, demoSave2] emptyState).data.length = 2
    ∧ (fileRows (runSaves demoParse [demoSave1, demoSave2] emptyState)).length = 2 := by
  have h := save_sequence_append_only demoParse [demoSave1, demoSave2] emptyState
    (by decide)
  exact ⟨h.2.2.1 rfl, h.2.2.2 rfl⟩

/-- C2: on invalid input (`category` empty, or the amount fails `float`
conversion, or it converts to a nonpositive number) `save_record` leaves
the whole state — file, dataset and form — unchanged and reports a
validation error; the category check runs first, and the first failing
check determines the message. -/
theorem save_record_invalid_unchanged (parse : String → Option ℚ) (now : String)
    (s : AppState)
    (h : s.categoryVar = "" ∨ parse s.amountEntry.pyStrip = none
      ∨ ∃ a, parse s.amountEntry.pyStrip = some a ∧ a ≤ 0) :
    (save_record parse now s).1 = s
    ∧ (∃ msg, (save_record parse now s).2 = .validationError msg)
    ∧ (s.categoryVar = "" →
        (save_record parse now s).2 = .validationError "Please select a category.")
    ∧ (¬ s.categoryVar = "" → parse s.amountEntry.pyStrip = none →
        (save_record parse now s).2 = .validationError "Amount must be a valid number.")
    ∧ (¬ s.categoryVar = "" → ∀ a, parse s.amountEntry.pyStrip = some a → a ≤ 0 →
        (save_record parse now s).2 = .validationError "Amount must be a positive number.") := by
  by_cases hc : s.categoryVar = ""
  · unfold save_record
    rw [if_pos hc]
    exact ⟨rfl, ⟨_, rfl⟩, fun _ => rfl, fun hnc => absurd hc hnc,
      fun hnc => absurd hc hnc⟩
  · rcases hpa : parse s.amountEntry.pyStrip with _ | a
    · unfold save_record
      rw [if_neg hc, hpa]
      exact ⟨rfl, ⟨_, rfl⟩, fun hcc => absurd hcc hc,
        fun _ _ => rfl, fun _ a hsome => by simp at hsome⟩
    · have hle : a ≤ 0 := by
        rcases h with hcc | hnone | ⟨b, hb, hble⟩
        · exact absurd hcc hc
        · rw [hpa] at hnone; exact absurd hnone (by simp)
        · rw [hpa] at hb; injection hb with hb; rw [hb]; exact hble
      unfold save_record
      rw [if_neg hc, hpa]
      dsimp only
      rw [if_pos hle]
      refine ⟨rfl, ⟨_, rfl⟩, fun hcc => absurd hcc hc, ?_, ?_⟩
      · intro _ hnone; exact absurd hnone (by simp)
      · intro _ b _ _; exact rfl

/-- Witness for C2: saving with no category selected changes nothing and
reports the category error. -/
theorem save_record_invalid_unchanged_witness :
    (save_record demoParse "2024-01-05 12:00:00" emptyState).1 = emptyState
    ∧ (save_record demoParse "2024-01-05 12:00:00" emptyState).2 =
        .validationError "Please select a category." := by
  have h := save_record_invalid_unchanged demoParse "2024-01-05 12:00:00" emptyState
    (Or.inl rfl)
  exact ⟨h.1, h.2.2.1 rfl⟩

/-- C5: filtering imposes no constraint for a value of `"All"`, keeps
exactly the rows whose field equals any other value, combines the two
predicates conjunctively, and preserves the source order (the result is a
`List.filter` of the source); on a dataset of three Expense and two
Income rows, `filter(type="Expense", category="All")` returns exactly the
three Expense rows in source order. -/
theorem apply_filter_semantics (data : List Record) (ft fc : String) :
    filterData data ft fc =
      data.filter (fun r =>
        decide ((ft = "All" ∨ r.type = ft) ∧ (fc = "All" ∨ r.category = fc)))
    ∧ filterData filterDemoData "Expense" "All" = [fe1, fe2, fe3] := by
  constructor
  · by_cases hft : ft = "All" <;> by_cases hfc : fc = "All" <;>
      simp [filterData, hft, hfc, List.filter_filter, Bool.and_comm]
  · decide

/-- C10: `apply_filter` recomputes the display from a copy of the full
dataset on every press, so it is idempotent, and applying new filter
values after an earlier application displays exactly what applying them
to the untouched state would. -/
theorem apply_filter_idempotent_noncumulative (s : AppState)
    (t1 c1 t2 c2 : String) :
    apply_filter (apply_filter s) = apply_filter s
    ∧ (apply_filter (setFilters t2 c2 (apply_filter (setFilters t1 c1 s)))).displayed
        = (apply_filter (setFilters t2 c2 s)).displayed :=
  ⟨rfl, rfl⟩

/-- C3 counterexample: rendering the dashboard on the spec's example
dataset changes the in-memory dataset (lines 317-318 write the `month`
column into `self.data`), so the save action is not the only mutator. -/
theorem dashboard_mutates_dataset :
    ¬ ((create_dashboard_plots dashDemoState).data = dashDemoState.data) := by
  decide

/-- C3 amended: the dataset is mutated only by the save action and by
dashboard rendering (which writes the derived month column back into the
dataset); history rendering, filtering and both exports read it without
changing it, and applying a filter never mutates the underlying
dataset. -/
theorem dataset_mutation_frame (s : AppState) (f : Option (List Record)) :
    (apply_filter s).data = s.data
    ∧ (apply_filter s).csvFile = s.csvFile
    ∧ (load_history_data s f).data = s.data
    ∧ (export_to_excel s).1 = s
    ∧ (export_to_pdf s).1 = s
    ∧ (s.data = [] → create_dashboard_plots s = s)
    ∧ (¬ s.data = [] → (create_dashboard_plots s).data = add_month_column s.data) := by
  refine ⟨rfl, rfl, rfl, rfl, rfl, ?_, ?_⟩
  · intro h; simp [create_dashboard_plots, h]
  · intro h; simp [create_dashboard_plots, h]

/-- Witness for the amended C3 at a concrete nonempty state. -/
theorem dataset_mutation_frame_witness :
    (apply_filter dashDemoState).data = dashDemoState.data
    ∧ (export_to_excel dashDemoState).1 = dashDemoState
    ∧ (export_to_pdf dashDemoState).1 = dashDemoState
    ∧ (create_dashboard_plots dashDemoState).data = add_month_column dashDemoState.data := by
  have h := dataset_mutation_frame dashDemoState none
  exact ⟨h.1, h.2.2.2.1, h.2.2.2.2.1, h.2.2.2.2.2.2 (by decide)⟩

-- `charListLe` agrees with the negation of core lexicographic `<`
theorem charListLe_iff_not_lt : ∀ as bs : List Char,
    charListLe as bs = true ↔ ¬ List.lt bs as
  | [], [] => by
    simp [charListLe]
    intro h; nomatch h
  | [], b :: bs => by
    simp [charListLe]
    intro h; nomatch h
  | a :: as, [] => by
    simp [charListLe]
    exact List.lt.nil a as
  | a :: as, b :: bs => by
    by_cases hab : a < b
    · simp [charListLe, hab]
      intro h
      cases h with
      | head _ _ h' => exact absurd hab (lt_asymm h')
      | tail h1 h2 h3 => exact h2 hab
    · by_cases hba : b < a
      · simp [charListLe, hab, hba]
        exact List.lt.head _ _ hba
      · simp [charListLe, hab, hba, charListLe_iff_not_lt as bs]
        constructor
        · intro h hlt
          cases hlt with
          | head _ _ h' => exact hba h'
          | tail h1 h2 h3 => exact h h3
        · intro h hlt
          exact h (List.lt.tail hba hab hlt)

-- `strLe` is the standard linear order on strings
theorem strLe_iff (a b : String) : strLe a b = true ↔ a ≤ b := by
  rw [strLe, charListLe_iff_not_lt, ← not_lt]
  exact not_congr ((List.lt_iff_lex_lt b.data a.data).trans String.lt_iff_toList_lt.symm)

theorem mem_insertKey (c x : String) : ∀ l, x ∈ insertKey c l ↔ x = c ∨ x ∈ l
  | [] => by simp [insertKey]
  | b :: l => by
    simp only [insertKey]
    split
    · simp [List.mem_cons]
    · simp only [List.mem_cons, mem_insertKey c x l]
      tauto

theorem sorted_insertKey (c : String) : ∀ (l : List String),
    l.Sorted (· < ·) → c ∉ l → (insertKey c l).Sorted (· < ·)
  | [], _, _ => by simp [insertKey]
  | b :: l, hs, hc => by
    rw [List.sorted_cons] at hs
    rw [insertKey]
    by_cases hcb : strLe c b = true
    · rw [if_pos hcb]
      have hlt : c < b :=
        lt_of_le_of_ne ((strLe_iff c b).mp hcb)
          (fun h => hc (h ▸ List.mem_cons_self b l))
      rw [List.sorted_cons]
      refine ⟨?_, ?_⟩
      · intro x hx
        rcases List.mem_cons.mp hx with rfl | hxl
        · exact hlt
        · exact lt_trans hlt (hs.1 x hxl)
      · rw [List.sorted_cons]; exact hs
    · rw [if_neg hcb]
      have hbc : b < c := not_le.mp (fun h => hcb ((strLe_iff c b).mpr h))
      rw [List.sorted_cons]
      refine ⟨?_, ?_⟩
      · intro x hx
        rcases (mem_insertKey c x l).mp hx with rfl | hxl
        · exact hbc
        · exact hs.1 x hxl
      · exact sorted_insertKey c l hs.2 (fun h => hc (List.mem_cons_of_mem b h))

theorem mem_sortedKeysAux (x : String) : ∀ (l acc : List String),
    x ∈ sortedKeysAux acc l ↔ x ∈ acc ∨ x ∈ l
  | [], acc => by simp [sortedKeysAux]
  | c :: cs, acc => by
    simp only [sortedKeysAux]
    rw [mem_sortedKeysAux x cs]
    by_cases hc : c ∈ acc
    · rw [if_pos hc]
      constructor
      · rintro (h | h)
        · exact Or.inl h
        · exact Or.inr (List.mem_cons_of_mem c h)
      · rintro (h | h)
        · exact Or.inl h
        · rcases List.mem_cons.mp h with rfl | h'
          · exact Or.inl hc
          · exact Or.inr h'
    · rw [if_neg hc, mem_insertKey]
      simp only [List.mem_cons]
      tauto

theorem sortedKeysAux_sorted : ∀ (l acc : List String), acc.Sorted (· < ·) →
    (sortedKeysAux acc l).Sorted (· < ·)
  | [], _, h => h
  | c :: cs, acc, h => by
    simp only [sortedKeysAux]
    apply sortedKeysAux_sorted cs
    by_cases hc : c ∈ acc
    · rw [if_pos hc]; exact h
    · rw [if_neg hc]; exact sorted_insertKey c acc h hc

theorem mem_sortedKeys (l : List String) (x : String) : x ∈ sortedKeys l ↔ x ∈ l := by
  unfold sortedKeys
  rw [mem_sortedKeysAux]
  simp

theorem sortedKeys_sorted (l : List String) : (sortedKeys l).Sorted (· < ·) :=
  sortedKeysAux_sorted l [] (by simp)

/-- C8: when the CSV file does not exist, `load_data` returns — without
an error, whatever the CSV reader would do on existing files — an empty
dataset whose column labels are exactly the fixed `COLUMNS` list. -/
theorem load_data_missing_file (read_csv : CsvFile → Except String Frame) :
    load_data read_csv none = .ok { columns := COLUMNS, rows := [] } :=
  rfl

/-- C9: exporting a dataset with zero rows produces, in the spreadsheet
export and in the document export alike, exactly the single header row of
column names and no data rows. -/
theorem export_empty_dataset_header_only (data : List Record) (h : data = []) :
    export_to_excel_rows data = [COLUMNS] ∧ export_to_pdf_rows data = [COLUMNS] := by
  subst h
  exact ⟨rfl, rfl⟩

/-- Witness for C9 at the concrete empty dataset. -/
theorem export_empty_dataset_header_only_witness :
    export_to_excel_rows [] = [COLUMNS] ∧ export_to_pdf_rows [] = [COLUMNS] :=
  export_empty_dataset_header_only [] rfl

-- one form interaction preserves the combobox and dataset invariants
theorem formStep_preserves_inv (parse : String → Option ℚ) (d0 : List Record)
    (s : AppState) (e : FormEvent) (hF : FormInv s) (hD : DataInv d0 s) :
    FormInv (formStep parse s e) ∧ DataInv d0 (formStep parse s e) := by
  cases e with
  | selectType t =>
    have heq : formStep parse s (.selectType t) =
        if t = "Expense" ∨ t = "Income" then
          { s with recordType := t, categoryVar := "" } else s := rfl
    rw [heq]
    split
    · exact ⟨Or.inl rfl, fun r hr => hD r hr⟩
    · exact ⟨hF, hD⟩
  | selectCategory c =>
    have heq : formStep parse s (.selectCategory c) =
        if c ∈ CATEGORIES s.recordType then { s with categoryVar := c } else s := rfl
    rw [heq]
    split
    case isTrue h => exact ⟨Or.inr h, fun r hr => hD r hr⟩
    case isFalse _ => exact ⟨hF, hD⟩
  | setAmount a => exact ⟨hF, hD⟩
  | setDescription d => exact ⟨hF, hD⟩
  | clickSave now =>
    show FormInv (save_record parse now s).1 ∧ DataInv d0 (save_record parse now s).1
    by_cases hc : s.categoryVar = ""
    · unfold save_record; rw [if_pos hc]; exact ⟨hF, hD⟩
    · rcases hpa : parse s.amountEntry.pyStrip with _ | a
      · unfold save_record; rw [if_neg hc, hpa]; exact ⟨hF, hD⟩
      · by_cases hle : a ≤ 0
        · unfold save_record
          rw [if_neg hc, hpa]
          dsimp only
          rw [if_pos hle]
          exact ⟨hF, hD⟩
        · rw [save_record_success parse now s hc a hpa (not_le.mp hle)]
          constructor
          · exact Or.inl rfl
          · intro r hr
            dsimp at hr
            rcases List.mem_append.mp hr with hold | hnew
            · exact hD r hold
            · have hr' := List.mem_singleton.mp hnew
              subst hr'
              refine Or.inr ⟨not_le.mp hle, ?_⟩
              rcases hF with h0 | hmem
              · exact absurd h0 hc
              · exact hmem

/-- Under the rational-valued model of `float` (in which every parsed
amount is an ordered number, unlike the IEEE `nan`): every record the
save operation accepts, over any sequence of interactions with the entry
form from startup with loaded dataset `d0`, satisfies the Record
invariants — positive amount and category in the fixed list of its type.
The `nan` escape from this property is `nan_amount_accepted_not_positive`
below. -/
theorem saved_records_satisfy_invariants (parse : String → Option ℚ)
    (d0 : List Record) (f0 : Option (List Record)) (events : List FormEvent)
    (r : Record) (hr : r ∈ (runForm parse events (initState d0 f0)).data) :
    r ∈ d0 ∨ (0 < r.amount ∧ r.category ∈ CATEGORIES r.type) := by
  have key : ∀ (es : List FormEvent) (s : AppState), FormInv s → DataInv d0 s →
      DataInv d0 (runForm parse es s) := by
    intro es
    induction es with
    | nil => intro s _ hD; exact hD
    | cons e es ih =>
      intro s hF hD
      have h := formStep_preserves_inv parse d0 s e hF hD
      exact ih _ h.1 h.2
  exact key events (initState d0 f0) (Or.inl rfl) (fun r hr => Or.inl hr) r hr

/-- A concrete session for the invariant theorem: pick the Food
category, type an amount of 20, press Save; the saved record satisfies
both invariants. -/
theorem saved_records_satisfy_invariants_witness :
    demoSavedRecord ∈ ([] : List Record)
    ∨ (0 < demoSavedRecord.amount
        ∧ demoSavedRecord.category ∈ CATEGORIES demoSavedRecord.type) :=
  saved_records_satisfy_invariants demoParse [] none demoEvents demoSavedRecord
    (by decide)

/-- C6: the dashboard's category breakdown keeps exactly the categories
that occur among Expense rows (each paired with the sum of the amounts of
the Expense rows of that category), the pie chart is skipped entirely
when no Expense rows exist, and on the spec's example dataset the series
is `Food = 50`. -/
theorem chartA_spec (data : List Record) :
    (∀ c v, (c, v) ∈ expense_data data ↔
      c ∈ (expenseRows data).map (fun r => r.category)
      ∧ v = sumAmounts ((expenseRows data).filter (fun r => decide (r.category = c))))
    ∧ (expenseRows data = [] → chartA data = none)
    ∧ chartA exampleData = some [("Food", 50)] := by
  refine ⟨?_, ?_, ?_⟩
  · intro c v
    unfold expense_data
    constructor
    · intro hmem
      obtain ⟨k, hk, hpair⟩ := List.mem_map.mp hmem
      rw [Prod.ext_iff] at hpair
      obtain ⟨h1, h2⟩ := hpair
      dsimp at h1 h2
      subst h1
      exact ⟨(mem_sortedKeys _ _).mp hk, h2.symm⟩
    · rintro ⟨hc, rfl⟩
      exact List.mem_map.mpr ⟨c, (mem_sortedKeys _ _).mpr hc, rfl⟩
  · intro h
    have he : expense_data data = [] := by
      unfold expense_data
      rw [h]
      rfl
    unfold chartA
    rw [if_pos he]
  · have hed : expense_data exampleData = [("Food", 50)] := by
      simp [expense_data, expenseRows, exampleData, sortedKeys, sortedKeysAux,
        insertKey, sumAmounts, List.filter_cons]
      norm_num
    unfold chartA
    rw [hed]
    simp

/-- Witness for C6: the skipped chart on an empty dataset, and the Food
total of the example dataset. -/
theorem chartA_spec_witness :
    chartA [] = none ∧ ("Food", (50 : ℚ)) ∈ expense_data exampleData := by
  refine ⟨(chartA_spec []).2.1 rfl, ?_⟩
  refine ((chartA_spec exampleData).1 "Food" 50).mpr ⟨by decide, ?_⟩
  simp [expenseRows, exampleData, sumAmounts, List.filter_cons]
  norm_num

/-- C7: the monthly-flow table lists the months occurring in the dataset
in ascending order; every listed cell value is the sum of the amounts of
the rows with that month key and that type (so a (month, type) pair with
no rows shows `0`); every dataset row's month appears, with a cell for
every type occurring in the dataset; and on the spec's example dataset
the table is `2024-01 ↦ (Expense 20, Income 1000)`,
`2024-02 ↦ (Expense 30, Income 0)`. -/
theorem chartB_spec (data : List Record) :
    ((monthly_summary data).map Prod.fst).Sorted (· < ·)
    ∧ (∀ m row, (m, row) ∈ monthly_summary data →
        m ∈ data.map (fun r => monthKey r.date)
        ∧ ∀ t v, (t, v) ∈ row →
            v = sumAmounts (data.filter
              (fun r => decide (monthKey r.date = m ∧ r.type = t))))
    ∧ (∀ r ∈ data, ∃ row, (monthKey r.date, row) ∈ monthly_summary data
        ∧ ∀ t ∈ data.map (fun x => x.type), ∃ v, (t, v) ∈ row)
    ∧ monthly_summary exampleData =
        [("2024-01", [("Expense", 20), ("Income", 1000)]),
         ("2024-02", [("Expense", 30), ("Income", 0)])] := by
  refine ⟨?_, ?_, ?_, ?_⟩
  · have hfst : (monthly_summary data).map Prod.fst =
        sortedKeys (data.map (fun r => monthKey r.date)) := by
      unfold monthly_summary
      rw [List.map_map]
      exact List.map_id _
    rw [hfst]
    exact sortedKeys_sorted _
  · intro m row hmem
    unfold monthly_summary at hmem
    obtain ⟨k, hk, hpair⟩ := List.mem_map.mp hmem
    rw [Prod.ext_iff] at hpair
    obtain ⟨h1, h2⟩ := hpair
    dsimp at h1 h2
    subst h1
    refine ⟨(mem_sortedKeys _ _).mp hk, ?_⟩
    intro t v htv
    rw [← h2] at htv
    obtain ⟨u, hu, hupair⟩ := List.mem_map.mp htv
    rw [Prod.ext_iff] at hupair
    obtain ⟨hu1, hu2⟩ := hupair
    dsimp at hu1 hu2
    subst hu1
    exact hu2.symm
  · intro r hr
    refine ⟨_, List.mem_map.mpr ⟨monthKey r.date,
        (mem_sortedKeys _ _).mpr (List.mem_map.mpr ⟨r, hr, rfl⟩), rfl⟩, ?_⟩
    intro t ht
    exact ⟨_, List.mem_map.mpr ⟨t, (mem_sortedKeys _ _).mpr ht, rfl⟩⟩
  · have hm1 : monthKey "2024-01-05" = "2024-01" := by decide
    have hm2 : monthKey "2024-01-10" = "2024-01" := by decide
    have hm3 : monthKey "2024-02-01" = "2024-02" := by decide
    have hs1 : strLe "2024-02" "2024-01" = false := by decide
    have hs2 : strLe "Income" "Expense" = false := by decide
    simp [monthly_summary, exampleData, sortedKeys, sortedKeysAux, insertKey,
      sumAmounts, List.filter_cons, hm1, hm2, hm3, hs1, hs2]

/-- Witness for C7: the example table's Income cell for January and the
fill-value-zero Income cell for February, extracted through the theorem. -/
theorem chartB_spec_witness :
    (1000 : ℚ) = sumAmounts (exampleData.filter
        (fun r => decide (monthKey r.date = "2024-01" ∧ r.type = "Income")))
    ∧ (0 : ℚ) = sumAmounts (exampleData.filter
        (fun r => decide (monthKey r.date = "2024-02" ∧ r.type = "Income"))) := by
  have htable := (chartB_spec exampleData).2.2.2
  constructor
  · exact ((chartB_spec exampleData).2.1 "2024-01"
      [("Expense", 20), ("Income", 1000)] (by rw [htable]; simp)).2
      "Income" 1000 (by norm_num)
  · exact ((chartB_spec exampleData).2.1 "2024-02"
      [("Expense", 30), ("Income", 0)] (by rw [htable]; simp)).2
      "Income" 0 (by norm_num)

/-- C4 fails on the code: the validation of `save_record` does not
enforce `amount > 0` for every input string.  Python's `float("nan")`
parses successfully, `nan <= 0` evaluates to `False`, so the check at
line 209 lets the save proceed — and the stored amount `nan` is not
positive either, violating the Record invariant `amount > 0`. -/
theorem nan_amount_accepted_not_positive :
    amountCheck pyFloatFixture "nan" = some .nan
    ∧ pyGtZero .nan = false :=
  ⟨rfl, rfl⟩
